import Mathlib

/-!
Verification of the honeydipper core: the framed message codec and stream-lock
registry (dipper/comm.go) and the service supervisor (internal/service/service.go).

The Go source is shallowly embedded: byte streams become lists of characters,
maps become association lists, Go panics become values of an explicit error
type, and goroutine effects are tracked as explicit event traces evaluated
sequentially.
-/

namespace Honeydipper

/-! ## Character classes used by the wire codec

Go's fmt scanner skips inline whitespace between tokens and stops a token at
any whitespace.  The model restricts the whitespace set to the ASCII space
characters (space, tab, vertical tab, form feed, newline, carriage return);
the non-ASCII Unicode space characters Go also recognises are outside the
model's alphabet of interest.
-/

/-- Inline whitespace that Fscanln's SkipSpace skips between header tokens:
every space character except the newline, which in ln mode is an error where
an operand is expected.  A carriage return is skipped like the other inline
spaces (SkipSpace consumes a lone CR as isSpace, and a CR immediately before
LF via its CRLF case, after which the LF itself is handled as a newline). -/
def isScanSpace (c : Char) : Bool :=
  c = ' ' || c = '\t' || c = Char.ofNat 11 || c = Char.ofNat 12 || c = '\r'

/-- Any whitespace character: terminates a header token. -/
def isWireWS (c : Char) : Bool :=
  isScanSpace c || c = '\n'

/-- Drop leading inline whitespace, as the scanner does before each token. -/
def dropSpaces : List Char → List Char
  | [] => []
  | c :: cs => if isScanSpace c then dropSpaces cs else c :: cs

/-- Take the longest whitespace-free run from the front of the stream: one
header token, together with the unconsumed remainder. -/
def takeTok : List Char → List Char × List Char
  | [] => ([], [])
  | c :: cs =>
    if isWireWS c then ([], c :: cs)
    else
      let (t, r) := takeTok cs
      (c :: t, r)

/-! ## Decimal rendering and parsing of the size field -/

/-- The ASCII digit character for a decimal digit, as produced by the %d verb. -/
def digitCh (d : Nat) : Char :=
  if d = 0 then '0' else if d = 1 then '1' else if d = 2 then '2'
  else if d = 3 then '3' else if d = 4 then '4' else if d = 5 then '5'
  else if d = 6 then '6' else if d = 7 then '7' else if d = 8 then '8' else '9'

/-- Fueled digit accumulation for decimal rendering; the fuel is an upper
bound on the value, which shrinks at least as fast. -/
def natDecimalAux : Nat → Nat → List Char → List Char
  | 0, _, acc => acc
  | fuel + 1, n, acc =>
    if n = 0 then acc
    else natDecimalAux fuel (n / 10) (digitCh (n % 10) :: acc)

/-- The standard decimal rendering of a natural number, as emitted by
fmt.Fprintf with the %d verb for the payload size. -/
def natDecimal (n : Nat) : List Char :=
  if n = 0 then ['0'] else natDecimalAux n n []

/-- Is the character an ASCII decimal digit. -/
def isDigitCh (c : Char) : Bool :=
  48 ≤ c.toNat && c.toNat ≤ 57

/-- Parse a whole token as a non-negative decimal numeral. -/
def parseNatTok (cs : List Char) : Option Nat :=
  if cs = [] then none
  else if cs.all isDigitCh then
    some (cs.foldl (fun a c => 10 * a + (c.toNat - 48)) 0)
  else none

/-- Parse a whole token as a decimal integer, accepting the leading minus sign
Go's int scanning accepts. -/
def parseIntTok : List Char → Option Int
  | [] => none
  | c :: cs =>
    if c = '-' then (parseNatTok cs).map (fun n => -(n : Int))
    else (parseNatTok (c :: cs)).map (fun n => (n : Int))

/-! ### Lemmas about the digit characters -/

theorem digitCh_toNat (d : Nat) (h : d < 10) : (digitCh d).toNat = 48 + d := by
  interval_cases d <;> rfl

theorem isDigitCh_digitCh (d : Nat) : isDigitCh (digitCh d) = true := by
  unfold digitCh
  split_ifs <;> rfl

theorem isWireWS_eq_false_of_isDigitCh (c : Char) (h : isDigitCh c = true) :
    isWireWS c = false := by
  have hs : c ≠ ' ' := fun hc => absurd h (by subst hc; decide)
  have ht : c ≠ '\t' := fun hc => absurd h (by subst hc; decide)
  have hv : c ≠ Char.ofNat 11 := fun hc => absurd h (by subst hc; decide)
  have hf : c ≠ Char.ofNat 12 := fun hc => absurd h (by subst hc; decide)
  have hn : c ≠ '\n' := fun hc => absurd h (by subst hc; decide)
  have hr : c ≠ '\r' := fun hc => absurd h (by subst hc; decide)
  simp [isWireWS, isScanSpace, hs, ht, hv, hf, hn, hr]

/-! ### Lemmas about `natDecimal` -/

theorem natDecimalAux_ne_nil (fuel n : Nat) (acc : List Char) (h : acc ≠ []) :
    natDecimalAux fuel n acc ≠ [] := by
  induction fuel generalizing n acc with
  | zero => simpa [natDecimalAux] using h
  | succ fuel ih =>
    unfold natDecimalAux
    split
    · exact h
    · exact ih _ _ (by simp)

theorem natDecimal_ne_nil (n : Nat) : natDecimal n ≠ [] := by
  unfold natDecimal
  split
  · simp
  · rename_i hn
    obtain ⟨m, rfl⟩ : ∃ m, n = m + 1 := ⟨n - 1, by omega⟩
    unfold natDecimalAux
    rw [if_neg (by omega)]
    exact natDecimalAux_ne_nil _ _ _ (by simp)

theorem natDecimalAux_all_digits (fuel n : Nat) (acc : List Char)
    (h : ∀ c ∈ acc, isDigitCh c = true) :
    ∀ c ∈ natDecimalAux fuel n acc, isDigitCh c = true := by
  induction fuel generalizing n acc with
  | zero => simpa [natDecimalAux] using h
  | succ fuel ih =>
    unfold natDecimalAux
    split
    · exact h
    · refine ih _ _ ?_
      intro c hc
      rcases List.mem_cons.mp hc with hc | hc
      · subst hc; exact isDigitCh_digitCh _
      · exact h c hc

theorem natDecimal_all_digits (n : Nat) :
    ∀ c ∈ natDecimal n, isDigitCh c = true := by
  unfold natDecimal
  split
  · intro c hc
    simp only [List.mem_singleton] at hc
    subst hc; rfl
  · exact natDecimalAux_all_digits _ _ _ (by simp)

/-- The scanner's digit-fold evaluated over the rendered digits recovers the
value: the central decimal round-trip fact. -/
theorem natDecimalAux_foldl (fuel : Nat) :
    ∀ n acc, n ≤ fuel →
      (natDecimalAux fuel n acc).foldl (fun a c => 10 * a + (c.toNat - 48)) 0 =
        acc.foldl (fun a c => 10 * a + (c.toNat - 48)) n := by
  induction fuel with
  | zero =>
    intro n acc h
    interval_cases n
    rfl
  | succ fuel ih =>
    intro n acc h
    unfold natDecimalAux
    split
    · subst ‹n = 0›; rfl
    · have hn : 0 < n := Nat.pos_of_ne_zero ‹n ≠ 0›
      have hdiv : n / 10 ≤ fuel := by
        have := Nat.div_lt_self hn (by norm_num : 1 < 10)
        omega
      rw [ih (n / 10) _ hdiv]
      simp only [List.foldl_cons]
      rw [digitCh_toNat (n % 10) (Nat.mod_lt _ (by norm_num))]
      congr 1
      omega

theorem parseNatTok_natDecimal (n : Nat) : parseNatTok (natDecimal n) = some n := by
  unfold parseNatTok
  rw [if_neg (natDecimal_ne_nil n),
      if_pos (List.all_eq_true.mpr (fun c hc => natDecimal_all_digits n c hc))]
  unfold natDecimal
  split
  · subst ‹n = 0›; rfl
  · rw [natDecimalAux_foldl n n [] (Nat.le_refl n)]
    rfl

theorem parseIntTok_natDecimal (n : Nat) : parseIntTok (natDecimal n) = some (n : Int) := by
  have hne := natDecimal_ne_nil n
  have hd := natDecimal_all_digits n
  cases hmem : natDecimal n with
  | nil => exact absurd hmem hne
  | cons c cs =>
    rw [hmem] at hd
    have hc : isDigitCh c = true := hd c (by simp)
    have hcm : c ≠ '-' := by
      intro h
      subst h
      exact absurd hc (by decide)
    simp only [parseIntTok, if_neg hcm, ← hmem, parseNatTok_natDecimal, Option.map_some']
    rfl

/-! ### Tokenizer lemmas -/

theorem dropSpaces_no_space (l : List Char) (h : ∀ c ∈ l, isScanSpace c = false) :
    dropSpaces l = l := by
  cases l with
  | nil => rfl
  | cons c cs =>
    unfold dropSpaces
    rw [h c (by simp)]
    simp

theorem dropSpaces_cons_of_not_space (c : Char) (cs : List Char)
    (h : isScanSpace c = false) : dropSpaces (c :: cs) = c :: cs := by
  unfold dropSpaces
  rw [h]
  simp

theorem takeTok_append (t rest : List Char) (ht : ∀ c ∈ t, isWireWS c = false)
    (hrest : rest = [] ∨ ∃ c cs, rest = c :: cs ∧ isWireWS c = true) :
    takeTok (t ++ rest) = (t, rest) := by
  induction t with
  | nil =>
    rcases hrest with h | ⟨c, cs, rfl, hc⟩
    · subst h; rfl
    · simp only [List.nil_append]
      unfold takeTok
      rw [hc]
      simp
  | cons c cs ih =>
    have hc : isWireWS c = false := ht c (by simp)
    unfold takeTok
    simp only [List.cons_append, hc, Bool.false_eq_true, if_false]
    rw [ih (fun x hx => ht x (by simp [hx]))]

/-! ## The message data model (dipper/comm.go)

The `Payload` field of the Go `Message` holds a dynamically typed value: nil,
a raw byte buffer, or (after decoding) a structured value.  JSON decoding is
abstracted: `PayloadV.obj bs` stands for the structure `json.Unmarshal`
decodes from the bytes `bs` (decoding failures, which panic in the source,
are outside the claims considered here).  Byte buffers are lists of
characters.
-/

inductive PayloadV where
  | nil
  | bytes (bs : List Char)
  | obj (src : List Char)
deriving DecidableEq

/-- The message passed between components of the system, as in comm.go. -/
structure Message where
  channel : String
  subject : String
  size : Int
  isRaw : Bool
  payload : PayloadV
deriving DecidableEq

/-- Go panics that the embedded functions can raise. -/
inductive GoPanic where
  | typeAssertion
  | commLockNotFound
  | nilDereference
deriving DecidableEq

/-- Failure modes of `FetchRawMessage`: end of input on the message boundary
(the io.EOF that is re-panicked as-is), a malformed header (the
invalid-message-envelope panic), or a short payload read (the io.ReadFull
error panic). -/
inductive FetchErr where
  | eofSignal
  | envelope
  | shortRead
deriving DecidableEq

/-- `DeserializeContent`: decode content into a structured value; empty
content decodes to nil. -/
def DeserializeContent (content : List Char) : PayloadV :=
  if 0 < content.length then .obj content else .nil

/-- `DeserializePayload`: when the message is still raw, the payload is
type-asserted to a byte buffer (any other dynamic type panics, modelled as
`GoPanic.typeAssertion`) and decoded in place.  The source does not touch the
`IsRaw` flag. -/
def DeserializePayload (msg : Message) : Except GoPanic Message :=
  if msg.isRaw then
    match msg.payload with
    | .bytes bs => .ok { msg with payload := DeserializeContent bs }
    | _ => .error .typeAssertion
  else .ok msg

/-- One operand scan of `fmt.Fscanln`: SkipSpace drops inline spaces; end of
input where the operand should start makes fmt's notEOF panic io.EOF, which
the errorHandler returns as-is — the distinct EOF result, wherever in the
header it happens; a newline where the operand should start is the
unexpected-newline scan error; otherwise the whitespace-delimited token is
read. -/
def scanTok (s : List Char) : Except FetchErr (List Char × List Char) :=
  match dropSpaces s with
  | [] => .error .eofSignal
  | c :: cs =>
    if isWireWS c then .error .envelope
    else .ok (takeTok (c :: cs))

/-- The header scan performed by `fmt.Fscanln(in, &channel, &subject, &size)`:
three operand scans (the third a decimal integer), then a newline or end of
input after the final operand.  End of input where any of the three operands
should start yields io.EOF, which comm.go re-panics as the distinct EOF
signal; every scan error — a newline where an operand is expected, a
non-numeric size, junk before the header's newline — becomes the
invalid-message-envelope panic. -/
def scanHeader (input : List Char) :
    Except FetchErr (List Char × List Char × Int × List Char) :=
  match scanTok input with
  | .error e => .error e
  | .ok (t1, r1) =>
    match scanTok r1 with
    | .error e => .error e
    | .ok (t2, r2) =>
      match scanTok r2 with
      | .error e => .error e
      | .ok (t3, r3) =>
        match parseIntTok t3 with
        | none => .error .envelope
        | some size =>
          match dropSpaces r3 with
          | [] => .ok (t1, t2, size, [])
          | c :: rest =>
            if c = '\n' then .ok (t1, t2, size, rest)
            else .error .envelope

/-- `FetchRawMessage`: scan the header, then read exactly `size` payload
bytes with io.ReadFull when `size > 0`.  Returns the fetched message together
with the unconsumed remainder of the stream. -/
def FetchRawMessage (input : List Char) : Except FetchErr (Message × List Char) :=
  match scanHeader input with
  | .error e => .error e
  | .ok (ch, sj, size, rest) =>
    let msg : Message :=
      { channel := ⟨ch⟩, subject := ⟨sj⟩, size := size, isRaw := true, payload := .nil }
    if 0 < size then
      if size.toNat ≤ rest.length then
        .ok ({ msg with payload := .bytes (rest.take size.toNat) }, rest.drop size.toNat)
      else .error .shortRead
    else .ok (msg, rest)

/-- `SendRawMessage`: the bytes `fmt.Fprintf(out, "%s %s %d\n", ...)` emits,
followed by the payload bytes exactly when the payload is non-empty. -/
def SendRawMessage (channel subject : String) (payload : List Char) : List Char :=
  channel.data ++ ' ' :: subject.data ++ ' ' :: natDecimal payload.length ++ '\n' :: payload

/-! ### Header round-trip -/

theorem dropSpaces_space (l : List Char) : dropSpaces (' ' :: l) = dropSpaces l := rfl

theorem isScanSpace_eq_false_of_not_ws (c : Char) (h : isWireWS c = false) :
    isScanSpace c = false := by
  cases hsc : isScanSpace c with
  | false => rfl
  | true => rw [isWireWS, hsc] at h; simp at h

theorem scanTok_space (l : List Char) : scanTok (' ' :: l) = scanTok l := rfl

/-- An operand scan at end of input (after inline spaces) is the io.EOF
result. -/
theorem scanTok_eof (s : List Char) (h : dropSpaces s = []) :
    scanTok s = .error .eofSignal := by
  unfold scanTok
  rw [h]

/-- An operand scan on a non-empty token followed by whitespace (or nothing)
reads exactly the token. -/
theorem scanTok_wellFormed (t rest : List Char) (ht : t ≠ [])
    (htw : ∀ c ∈ t, isWireWS c = false)
    (hrest : rest = [] ∨ ∃ c cs, rest = c :: cs ∧ isWireWS c = true) :
    scanTok (t ++ rest) = .ok (t, rest) := by
  obtain ⟨c, cs, rfl⟩ : ∃ c cs, t = c :: cs := by
    cases t with
    | nil => exact absurd rfl ht
    | cons c cs => exact ⟨c, cs, rfl⟩
  have hcw : isWireWS c = false := htw c (by simp)
  unfold scanTok
  rw [List.cons_append,
    dropSpaces_cons_of_not_space _ _ (isScanSpace_eq_false_of_not_ws _ hcw)]
  dsimp only
  rw [if_neg (by simp [hcw]), ← List.cons_append, takeTok_append _ _ htw hrest]

/-- A well-formed header line followed by anything scans to its three tokens
and leaves the stream immediately after the newline. -/
theorem scanHeader_wellFormed (t1 t2 : List Char) (n : Nat) (tail : List Char)
    (h1 : t1 ≠ []) (h1w : ∀ c ∈ t1, isWireWS c = false)
    (h2 : t2 ≠ []) (h2w : ∀ c ∈ t2, isWireWS c = false) :
    scanHeader (t1 ++ ' ' :: (t2 ++ ' ' :: (natDecimal n ++ '\n' :: tail))) =
      .ok (t1, t2, (n : Int), tail) := by
  have h3 := natDecimal_ne_nil n
  have h3w : ∀ c ∈ natDecimal n, isWireWS c = false := fun c hc =>
    isWireWS_eq_false_of_isDigitCh c (natDecimal_all_digits n c hc)
  have hwn : isWireWS '\n' = true := by decide
  have hws : isWireWS ' ' = true := by decide
  unfold scanHeader
  rw [scanTok_wellFormed t1 _ h1 h1w (Or.inr ⟨_, _, rfl, hws⟩)]
  dsimp only
  rw [scanTok_space, scanTok_wellFormed t2 _ h2 h2w (Or.inr ⟨_, _, rfl, hws⟩)]
  dsimp only
  rw [scanTok_space, scanTok_wellFormed (natDecimal n) _ h3 h3w (Or.inr ⟨_, _, rfl, hwn⟩)]
  dsimp only
  rw [parseIntTok_natDecimal n]
  dsimp only
  rw [dropSpaces_cons_of_not_space _ _ (by decide : isScanSpace '\n' = false)]
  dsimp only
  rw [if_pos rfl]

/-- Writing a message with `SendRawMessage` and reading the bytes back with
`FetchRawMessage` reproduces the channel, subject, size and payload exactly
and consumes the whole stream. -/
theorem FetchRawMessage_SendRawMessage (channel subject : String) (payload : List Char)
    (hch : channel.data ≠ []) (hchw : ∀ c ∈ channel.data, isWireWS c = false)
    (hsj : subject.data ≠ []) (hsjw : ∀ c ∈ subject.data, isWireWS c = false) :
    FetchRawMessage (SendRawMessage channel subject payload) =
      .ok ({ channel := channel, subject := subject, size := (payload.length : Int),
             isRaw := true,
             payload := if payload = [] then .nil else .bytes payload }, []) := by
  unfold SendRawMessage FetchRawMessage
  rw [show (channel.data ++ ' ' :: subject.data ++ ' ' :: natDecimal payload.length
        ++ '\n' :: payload : List Char)
      = channel.data ++ ' ' :: (subject.data ++ ' '
        :: (natDecimal payload.length ++ '\n' :: payload)) from by simp,
    scanHeader_wellFormed channel.data subject.data payload.length payload hch hchw hsj hsjw]
  dsimp only
  cases payload with
  | nil =>
    rw [if_neg (by simp)]
    rfl
  | cons p ps =>
    rw [if_pos (by exact_mod_cast Nat.succ_pos ps.length), if_pos (by simp)]
    simp only [Int.toNat_ofNat, List.take_length, List.drop_length]
    rw [if_neg (by simp)]

/-- A well-formed header announcing more payload bytes than the stream holds
makes the payload read fail. -/
theorem FetchRawMessage_short (t1 t2 : List Char) (n : Nat) (pl : List Char)
    (h1 : t1 ≠ []) (h1w : ∀ c ∈ t1, isWireWS c = false)
    (h2 : t2 ≠ []) (h2w : ∀ c ∈ t2, isWireWS c = false)
    (hlt : pl.length < n) :
    FetchRawMessage (t1 ++ ' ' :: (t2 ++ ' ' :: (natDecimal n ++ '\n' :: pl))) =
      .error .shortRead := by
  unfold FetchRawMessage
  rw [scanHeader_wellFormed t1 t2 n pl h1 h1w h2 h2w]
  dsimp only
  rw [if_pos (by exact_mod_cast Nat.zero_lt_of_lt hlt : (0 : Int) < (n : Int)),
    if_neg (by simpa using Nat.not_le.mpr hlt)]

/-! ## Claim C1 -/

/-- C1: for non-empty whitespace-free channel and subject, the bytes
`SendRawMessage` emits read back through `FetchRawMessage` as a message with
the same channel, subject, payload and with size equal to the payload length,
consuming the whole stream; concretely, channel rpc, subject call, payload
"\x7b\x7d" produces exactly the bytes "rpc call 2\n\x7b\x7d", which read back
with size 2. -/
theorem claim_C1_codec_roundtrip (channel subject : String) (payload : List Char)
    (hch : channel.data ≠ []) (hchw : ∀ c ∈ channel.data, isWireWS c = false)
    (hsj : subject.data ≠ []) (hsjw : ∀ c ∈ subject.data, isWireWS c = false) :
    FetchRawMessage (SendRawMessage channel subject payload) =
      .ok ({ channel := channel, subject := subject, size := (payload.length : Int),
             isRaw := true,
             payload := if payload = [] then .nil else .bytes payload }, []) ∧
    SendRawMessage "rpc" "call" "\x7b\x7d".data = "rpc call 2\n\x7b\x7d".data ∧
    FetchRawMessage ("rpc call 2\n\x7b\x7d".data) =
      .ok ({ channel := "rpc", subject := "call", size := 2, isRaw := true,
             payload := .bytes "\x7b\x7d".data }, []) :=
  ⟨FetchRawMessage_SendRawMessage channel subject payload hch hchw hsj hsjw, rfl, rfl⟩

theorem claim_C1_codec_roundtrip_witness :
    FetchRawMessage (SendRawMessage "rpc" "call" "\x7b\x7d".data) =
      .ok ({ channel := "rpc", subject := "call", size := ("\x7b\x7d".data.length : Int),
             isRaw := true,
             payload := if "\x7b\x7d".data = [] then PayloadV.nil
                        else .bytes "\x7b\x7d".data }, []) ∧
    SendRawMessage "rpc" "call" "\x7b\x7d".data = "rpc call 2\n\x7b\x7d".data ∧
    FetchRawMessage ("rpc call 2\n\x7b\x7d".data) =
      .ok ({ channel := "rpc", subject := "call", size := 2, isRaw := true,
             payload := .bytes "\x7b\x7d".data }, []) :=
  claim_C1_codec_roundtrip "rpc" "call" "\x7b\x7d".data
    (by decide) (by decide) (by decide) (by decide)

/-! ## Claim C8

The claim classifies any incomplete header line — including one truncated by
end of input — as a parse error, with the EOF signal reserved for end of
input exactly at the message boundary.  The code is not so partitioned:
fmt's notEOF panics io.EOF whenever end of input is reached where an operand
is expected (for built-in operands no conversion to ErrUnexpectedEOF
happens), and comm.go lines 72-77 re-panic io.EOF as-is, so a truncated
header such as "rpc" or "rpc call" also fails with the distinct EOF signal
rather than the invalid-message-envelope panic.
-/

/-- C8 fails as stated: a header truncated by end of input is not
`channel SP subject SP size LF`, yet reading it fails with the distinct EOF
signal, not with the invalid-message-envelope parse error. -/
theorem claim_C8_counterexample :
    FetchRawMessage ("rpc".data) = .error .eofSignal ∧
    FetchRawMessage ("rpc".data) ≠ .error .envelope ∧
    FetchRawMessage ("rpc call".data) = .error .eofSignal := by
  refine ⟨rfl, ?_, rfl⟩
  rw [show FetchRawMessage ("rpc".data) = Except.error FetchErr.eofSignal from rfl]
  intro h
  exact absurd (Except.error.inj h) (by decide)

/-- C8 (amended): reading is strict, with the failures classified as the
code classifies them.  End of input where a header token is expected — at
the message boundary or inside a truncated header — fails with the distinct
EOF signal (Fscanln yields io.EOF there and FetchRawMessage re-panics it
as-is); a header whose failure is a scan error rather than end of input — a
non-decimal size, a newline where a header token is expected, junk before
the header's newline — fails with the invalid-message-envelope parse error;
and an input that ends before the full size payload bytes are available
fails with the short-read error rather than returning a truncated
message. -/
theorem claim_C8_strict_reader (channel subject : String) (n : Nat) (pl : List Char)
    (input : List Char)
    (hch : channel.data ≠ []) (hchw : ∀ c ∈ channel.data, isWireWS c = false)
    (hsj : subject.data ≠ []) (hsjw : ∀ c ∈ subject.data, isWireWS c = false)
    (hlt : pl.length < n) (hin : dropSpaces input = []) :
    FetchRawMessage input = .error .eofSignal ∧
    FetchRawMessage ("rpc".data) = .error .eofSignal ∧
    FetchRawMessage ("rpc call".data) = .error .eofSignal ∧
    FetchRawMessage
      (channel.data ++ ' ' :: (subject.data ++ ' ' :: (natDecimal n ++ '\n' :: pl))) =
        .error .shortRead ∧
    FetchRawMessage ("rpc call x\n".data) = .error .envelope ∧
    FetchRawMessage ("rpc call\n".data) = .error .envelope ∧
    FetchRawMessage ("rpc\ncall 2\n".data) = .error .envelope := by
  refine ⟨?_, rfl, rfl, FetchRawMessage_short _ _ n pl hch hchw hsj hsjw hlt, rfl, rfl, rfl⟩
  unfold FetchRawMessage scanHeader
  rw [scanTok_eof input hin]

theorem claim_C8_strict_reader_witness :
    FetchRawMessage [' '] = .error .eofSignal ∧
    FetchRawMessage ("rpc".data) = .error .eofSignal ∧
    FetchRawMessage ("rpc call".data) = .error .eofSignal ∧
    FetchRawMessage
      (("rpc" : String).data ++ ' ' :: (("call" : String).data ++ ' '
        :: (natDecimal 5 ++ '\n' :: "ab".data))) = .error .shortRead ∧
    FetchRawMessage ("rpc call x\n".data) = .error .envelope ∧
    FetchRawMessage ("rpc call\n".data) = .error .envelope ∧
    FetchRawMessage ("rpc\ncall 2\n".data) = .error .envelope :=
  claim_C8_strict_reader "rpc" "call" 5 "ab".data [' ']
    (by decide) (by decide) (by decide) (by decide) (by decide) (by decide)

/-! ## Claim C2

The source of `DeserializePayload` decodes the payload when `IsRaw` is set
but never writes `IsRaw` back to false, so a message that went through one
decoding still carries `IsRaw = true` with a non-buffer payload, and a second
application panics on the type assertion instead of being a no-op.
-/

/-- C2 fails as stated: decoding the raw message a first time succeeds and
leaves `isRaw` set, and the second application panics. -/
theorem claim_C2_counterexample :
    DeserializePayload
        { channel := "rpc", subject := "call", size := 2, isRaw := true,
          payload := .bytes "\x7b\x7d".data } =
      .ok { channel := "rpc", subject := "call", size := 2, isRaw := true,
            payload := .obj "\x7b\x7d".data } ∧
    DeserializePayload
        { channel := "rpc", subject := "call", size := 2, isRaw := true,
          payload := .obj "\x7b\x7d".data } =
      .error .typeAssertion :=
  ⟨rfl, rfl⟩

/-- C2 (amended): `DeserializePayload` is a no-op on a message whose `isRaw`
flag is false; on a raw message with non-empty payload bytes the first
application replaces the bytes by the decoded structure but leaves `isRaw`
set, so a second application fails with a type-assertion panic instead of
being a no-op. -/
theorem claim_C2_deserialize_once (m mdone : Message) (bs : List Char)
    (hraw : m.isRaw = true) (hb : m.payload = .bytes bs) (hne : bs ≠ [])
    (hdone : mdone.isRaw = false) :
    DeserializePayload m = .ok { m with payload := .obj bs } ∧
    ({ m with payload := PayloadV.obj bs } : Message).isRaw = true ∧
    DeserializePayload { m with payload := PayloadV.obj bs } = .error .typeAssertion ∧
    DeserializePayload mdone = .ok mdone := by
  refine ⟨?_, hraw, ?_, ?_⟩
  · unfold DeserializePayload
    rw [hraw]
    simp only [if_true]
    rw [hb]
    dsimp only
    unfold DeserializeContent
    rw [if_pos (by cases bs with | nil => exact absurd rfl hne | cons c cs => simp)]
  · unfold DeserializePayload
    simp only [hraw, if_true]
  · unfold DeserializePayload
    rw [hdone]
    simp

theorem claim_C2_deserialize_once_witness :
    DeserializePayload
        { channel := "rpc", subject := "call", size := 2, isRaw := true,
          payload := .bytes "\x7b\x7d".data } =
      .ok { channel := "rpc", subject := "call", size := 2, isRaw := true,
            payload := .obj "\x7b\x7d".data } ∧
    ({ channel := "rpc", subject := "call", size := 2, isRaw := true,
       payload := PayloadV.obj "\x7b\x7d".data } : Message).isRaw = true ∧
    DeserializePayload
        { channel := "rpc", subject := "call", size := 2, isRaw := true,
          payload := PayloadV.obj "\x7b\x7d".data } = .error .typeAssertion ∧
    DeserializePayload
        { channel := "eventbus", subject := "message", size := 0, isRaw := false,
          payload := PayloadV.nil } =
      .ok { channel := "eventbus", subject := "message", size := 0, isRaw := false,
            payload := PayloadV.nil } :=
  claim_C2_deserialize_once
    { channel := "rpc", subject := "call", size := 2, isRaw := true,
      payload := .bytes "\x7b\x7d".data }
    { channel := "eventbus", subject := "message", size := 0, isRaw := false,
      payload := PayloadV.nil }
    "\x7b\x7d".data rfl rfl (by decide) rfl

/-! ## The stream-lock registry (dipper/comm.go)

`CommLocks` maps a writer to its per-writer mutex.  Writers are identified by
a number (Go compares them by interface identity); the mutex is modelled by
its held flag, and blocking is outside the sequential model.  The registry is
an association list; `MasterCommLock`, which only serialises registry
mutation, has no sequential content.
-/

/-- The comm-lock registry: writer identity to mutex-held flag. -/
abbrev CommLocks := List (Nat × Bool)

/-- Look up the per-writer lock, as the indexing `CommLocks[out]` does. -/
def commLookup (locks : CommLocks) (w : Nat) : Option Bool :=
  (locks.find? (fun p => p.1 = w)).map Prod.snd

/-- `LockComm`: get or create the per-writer mutex, then take it.  Creation
means locking never fails. -/
def LockComm (locks : CommLocks) (w : Nat) : CommLocks :=
  match commLookup locks w with
  | some _ => locks.map (fun p => if p.1 = w then (p.1, true) else p)
  | none => (w, true) :: locks

/-- `UnlockComm`: release the per-writer mutex, panicking with
"comm lock not found" when the writer has no registered lock. -/
def UnlockComm (locks : CommLocks) (w : Nat) : Except GoPanic CommLocks :=
  match commLookup locks w with
  | some _ => .ok (locks.map (fun p => if p.1 = w then (p.1, false) else p))
  | none => .error .commLockNotFound

/-- `RemoveComm`: drop the per-writer lock when the channel is closed; a
missing entry is silently ignored. -/
def RemoveComm (locks : CommLocks) (w : Nat) : CommLocks :=
  match commLookup locks w with
  | some _ => locks.filter (fun p => p.1 ≠ w)
  | none => locks

/-! ## The driver runtime and the reload decision (internal/service/service.go)

Modelled from the spec: the `driver.Runtime` structure itself lives outside
src/ (only its use sites are in the source), so its fields follow spec §3 —
`feature`, `service`, the handler's driver descriptor (`meta`), the `data`
and `dynamicData` configuration snapshots, and `state`.  The extra `id` field
stands for Go object identity (pointer equality), letting theorems speak
about identity-changing versus identity-preserving reloads.  Configuration
snapshots are abstracted to string association lists and `reflect.DeepEqual`
to structural equality.
-/

/-- Driver runtime states (driver.DriverLoading and friends). -/
inductive DriverState where
  | loading
  | alive
  | reloading
  | failed
  | stopped
deriving DecidableEq

/-- The driver runtime descriptor (see the module comment above). -/
structure Runtime where
  id : Nat
  feature : String
  service : String
  meta : List (String × String)
  data : List (String × String)
  dynamicData : List (String × String)
  state : DriverState
deriving DecidableEq

/-- A control message sent to a driver, identified by channel and subject. -/
structure SentMsg where
  channel : String
  subject : String
deriving DecidableEq

/-- `hotReload`: copy the new runtime's `Data` and `DynamicData` onto the old
runtime object in place, set its state to Reloading, and send the
command:options message (`SendOptions`).  Every other field of the old
runtime is untouched and the object (its `id`) is the same. -/
def hotReload (driverRuntime oldRuntime : Runtime) : Runtime × SentMsg :=
  ({ oldRuntime with
      data := driverRuntime.data
      dynamicData := driverRuntime.dynamicData
      state := .reloading },
   { channel := "command", subject := "options" })

/-- The reload decision of `loadFeature` (service.go lines 194-211), taking
the freshly built runtime and the existing one as arguments — feature-name
resolution, config lookups and `NewDriver` happen before this point in the
source and are external collaborators.  Returns the `affected` flag, the
runtime occupying the feature slot afterwards (`coldReload` installs the new
runtime via `setDriverRuntime`; the hot path and the no-op keep the old
object), and the control messages sent synchronously. -/
def loadFeature (oldRuntime : Option Runtime) (driverRuntime : Runtime) :
    Bool × Runtime × List SentMsg :=
  let driverMetaUnchanged :=
    match oldRuntime with
    | some o => decide (o.meta = driverRuntime.meta)
    | none => false
  let driverRunning :=
    match oldRuntime with
    | some o => decide (o.state ≠ DriverState.failed)
    | none => false
  if driverRunning && driverMetaUnchanged then
    match oldRuntime with
    | some o =>
      if o.data = driverRuntime.data ∧ o.dynamicData = driverRuntime.dynamicData then
        (false, o, [])
      else
        let (r, msg) := hotReload driverRuntime o
        (true, r, [msg])
    | none => (true, driverRuntime, [])
  else
    (true, driverRuntime, [])

/-! ## Service-level message routing

The service-level message (pkg/dipper's `Message` with its `Labels` map) is
not under src/; modelled from the spec (§3): channel, subject and a
string-to-string label map, here an association list read through
`labelsGet` (a missing key reads as the empty string, as a Go map does) and
written through `labelsSet`.
-/

/-- Label maps of service-level messages. -/
abbrev Labels := List (String × String)

/-- Read a label; Go map indexing yields "" for a missing key. -/
def labelsGet (ls : Labels) (k : String) : String :=
  ((ls.find? (fun p => p.1 = k)).map Prod.snd).getD ""

/-- Write a label. -/
def labelsSet (ls : Labels) (k v : String) : Labels :=
  (k, v) :: ls.filter (fun p => p.1 ≠ k)

/-- A service-level message. -/
structure SvcMessage where
  channel : String
  subject : String
  labels : Labels

/-- The feature registry of a service: `driverRuntimes`, feature name to
runtime. -/
structure ServiceSt where
  runtimes : List (String × Runtime)

/-- `getDriverRuntime`: look the feature up in `driverRuntimes`. -/
def getDriverRuntime (s : ServiceSt) (feature : String) : Option Runtime :=
  (s.runtimes.find? (fun p => p.1 = feature)).map Prod.snd

/-- Where an rpc message ends up: forwarded to the runtime registered for a
feature, or handed to the local `HandleReturn`. -/
inductive RpcOutcome where
  | forwarded (destFeature : String) (m : SvcMessage)
  | handledLocally (m : SvcMessage)

/-- `handleRPCCall`: stamp `labels.caller` with the originating runtime's
feature and forward to the runtime registered for `labels.feature`
(`SendMessage` on the nil runtime of an unregistered feature panics). -/
def handleRPCCall (s : ServiceSt) (fromRt : Runtime) (m : SvcMessage) :
    Except GoPanic RpcOutcome :=
  let feature := labelsGet m.labels "feature"
  let stamped : SvcMessage := { m with labels := labelsSet m.labels "caller" fromRt.feature }
  match getDriverRuntime s feature with
  | some _ => .ok (.forwarded feature stamped)
  | none => .error .nilDereference

/-- `handleRPCReturn`: a return labelled with caller "-" is swallowed by
`HandleReturn`; any other return is forwarded to the runtime registered for
the caller feature. -/
def handleRPCReturn (s : ServiceSt) (m : SvcMessage) : Except GoPanic RpcOutcome :=
  let caller := labelsGet m.labels "caller"
  if caller = "-" then .ok (.handledLocally m)
  else
    match getDriverRuntime s caller with
    | some _ => .ok (.forwarded caller m)
    | none => .error .nilDereference

/-! ## Drain and stop handling -/

/-- `handleDriverStop`: on state:stopped, transition the runtime to Stopped
and signal one draining unit done — but only when it is not already Stopped.
The second component counts `drainingGroup.Done()` calls. -/
def handleDriverStop (fromRt : Runtime) (doneCount : Nat) : Runtime × Nat :=
  if fromRt.state ≠ DriverState.stopped then
    ({ fromRt with state := .stopped }, doneCount + 1)
  else (fromRt, doneCount)

/-- A runtime `Drain` still has to stop: neither Failed nor Stopped. -/
def drainPending (p : String × Runtime) : Bool :=
  decide (p.2.state ≠ DriverState.failed ∧ p.2.state ≠ DriverState.stopped)

/-- The number of runtimes `Drain` counts. -/
def drainCount (s : ServiceSt) : Nat :=
  (s.runtimes.filter drainPending).length

/-- What one call to `Drain` does. -/
structure DrainOutcome where
  healthy : Bool
  drainingGroup : Option Nat
  stops : List (String × SentMsg)
  waitSeconds : Option Nat
  stages : List String
deriving DecidableEq

/-- `Drain`: clear `healthy`, count the runtimes that are neither Failed nor
Stopped and, when the count is positive, install a wait-group of that count,
send command:stop to each counted runtime and wait on the group with a
one-second timeout; finally advance the config stage to Drained. -/
def Drain (s : ServiceSt) : DrainOutcome :=
  let cnt := drainCount s
  if 0 < cnt then
    { healthy := false
      drainingGroup := some cnt
      stops := (s.runtimes.filter drainPending).map
        (fun p => (p.1, { channel := "command", subject := "stop" }))
      waitSeconds := some 1
      stages := ["Drained"] }
  else
    { healthy := false
      drainingGroup := none
      stops := []
      waitSeconds := none
      stages := ["Drained"] }

/-! ## The expect table (addExpect / deleteExpect / isExpecting)

Handlers are identified by registration number.  The table maps an expect key
to the registered handler list; the state additionally records which handlers
have run on a matching message and which timeout callbacks have fired, and a
trace of events (registrations, a matching message arriving, a registration's
timer firing) is folded through the step function.

The timeout goroutine body in `addExpect` (service.go lines 556-577)
re-checks the key via `isExpecting`; when more than one handler is present it
walks the snapshot comparing the address of a slice element with the address
of its own `processor` parameter.  In Go those are always distinct objects —
the elements live in the map's slice backing array, the parameter in the
closure frame — so the comparison never succeeds and nothing is removed from
the table; only with a single remaining handler is the whole key deleted.
The model encodes the always-false comparison directly in the
more-than-one-handler branch.
-/

abbrev ExpectTable := List (String × List Nat)

/-- Map read, as `s.expects[expectKey]` with its ok flag. -/
def expLookup (t : ExpectTable) (k : String) : Option (List Nat) :=
  (t.find? (fun p => p.1 = k)).map Prod.snd

/-- Map write to an existing key. -/
def expSet (t : ExpectTable) (k : String) (l : List Nat) : ExpectTable :=
  t.map (fun p => if p.1 = k then (k, l) else p)

/-- Map delete, as `delete(s.expects, expectKey)`. -/
def expDelete (t : ExpectTable) (k : String) : ExpectTable :=
  t.filter (fun p => p.1 ≠ k)

/-- The events the expect table reacts to. -/
inductive ExpectEvent where
  | add (key : String) (hid : Nat)
  | msgArrive (key : String)
  | timerFire (key : String) (hid : Nat)

/-- Expect table plus the record of which handlers and timeout callbacks have
run. -/
structure ExpectState where
  expects : ExpectTable
  ran : List Nat
  timedOut : List Nat

/-- One step of the expect machinery.

add: `addExpect` appends the handler under the key (creating the entry).

msgArrive: `process` calls `deleteExpect`, which removes the whole entry
atomically, and every handler in the removed list runs.

timerFire: the timeout goroutine checks `isExpecting`; if the key is gone
nothing happens and the timeout callback does not run.  Otherwise, with more
than one handler present, the element-removal loop never finds its handler
(see the module comment) and removes nothing; with one handler the key is
deleted.  Either way the timeout callback then runs. -/
def expectStep (st : ExpectState) (e : ExpectEvent) : ExpectState :=
  match e with
  | .add k hid =>
    match expLookup st.expects k with
    | some l => { st with expects := expSet st.expects k (l ++ [hid]) }
    | none => { st with expects := st.expects ++ [(k, [hid])] }
  | .msgArrive k =>
    match expLookup st.expects k with
    | some l => { st with expects := expDelete st.expects k, ran := st.ran ++ l }
    | none => st
  | .timerFire k hid =>
    match expLookup st.expects k with
    | none => st
    | some l =>
      if 1 < l.length then
        { st with timedOut := st.timedOut ++ [hid] }
      else
        { st with expects := expDelete st.expects k, timedOut := st.timedOut ++ [hid] }

/-- Fold a trace of expect events through the machinery. -/
def expectRun (st : ExpectState) (es : List ExpectEvent) : ExpectState :=
  es.foldl expectStep st

/-! ## Claim C6 -/

/-- C6: with a single registration the machinery behaves as claimed (message
before the timer runs the handler and removes the entry; a timer on a live
entry removes it and runs the timeout callback), and a matching message
always removes the whole list with every handler running once and no timeout
callback ever firing — but with two registrations on the same key and no
message, both timeout callbacks run and the entry is never removed from the
table: the element-removal comparison in the timeout goroutine can never
succeed. -/
theorem claim_C6_expect_lifecycle :
    expectRun ⟨[], [], []⟩
        [.add "state:alive:noop" 0, .timerFire "state:alive:noop" 0] =
      ⟨[], [], [0]⟩ ∧
    expectRun ⟨[], [], []⟩
        [.add "state:alive:noop" 0, .msgArrive "state:alive:noop",
         .timerFire "state:alive:noop" 0] =
      ⟨[], [0], []⟩ ∧
    expectRun ⟨[], [], []⟩
        [.add "state:alive:noop" 0, .add "state:alive:noop" 1,
         .msgArrive "state:alive:noop",
         .timerFire "state:alive:noop" 0, .timerFire "state:alive:noop" 1] =
      ⟨[], [0, 1], []⟩ ∧
    expectRun ⟨[], [], []⟩
        [.add "state:alive:noop" 0, .add "state:alive:noop" 1,
         .timerFire "state:alive:noop" 0, .timerFire "state:alive:noop" 1] =
      ⟨[("state:alive:noop", [0, 1])], [], [0, 1]⟩ :=
  ⟨rfl, rfl, rfl, rfl⟩

/-! ## Claim C3 -/

theorem loadFeature_cold_none (new : Runtime) : loadFeature none new = (true, new, []) := rfl

theorem loadFeature_cold_failed (o new : Runtime) (h : o.state = .failed) :
    loadFeature (some o) new = (true, new, []) := by
  unfold loadFeature
  simp [h]

theorem loadFeature_cold_meta (o new : Runtime) (h : o.meta ≠ new.meta) :
    loadFeature (some o) new = (true, new, []) := by
  unfold loadFeature
  simp [h]

theorem loadFeature_hot (o new : Runtime) (h1 : o.state ≠ .failed) (h2 : o.meta = new.meta)
    (h3 : ¬(o.data = new.data ∧ o.dynamicData = new.dynamicData)) :
    loadFeature (some o) new = (true, (hotReload new o).1, [(hotReload new o).2]) := by
  unfold loadFeature
  simp [h1, h2, h3]

theorem loadFeature_noop (o new : Runtime) (h1 : o.state ≠ .failed) (h2 : o.meta = new.meta)
    (h3 : o.data = new.data) (h4 : o.dynamicData = new.dynamicData) :
    loadFeature (some o) new = (false, o, []) := by
  unfold loadFeature
  simp [h1, h2, h3, h4]

/-- C3: the reload decision table.  With no old runtime, a Failed old
runtime, or a changed driver meta, the feature is affected and the new
runtime is installed in the slot (a cold reload, changing the slot's
identity); with meta unchanged, the old runtime live, and data or dynamic
data changed, the feature is affected and the slot keeps the old object,
mutated in place with the new data and the Reloading state (a hot reload);
with meta, data and dynamic data all unchanged, the feature is reported as
not affected and nothing changes or is sent. -/
theorem claim_C3_reload_decision (oldC : Option Runtime) (newC : Runtime)
    (oldH newH oldN newN : Runtime)
    (hcold : oldC = none ∨ ∃ o, oldC = some o ∧ (o.state = .failed ∨ o.meta ≠ newC.meta))
    (hH1 : oldH.state ≠ .failed) (hH2 : oldH.meta = newH.meta)
    (hH3 : oldH.data ≠ newH.data ∨ oldH.dynamicData ≠ newH.dynamicData)
    (hN1 : oldN.state ≠ .failed) (hN2 : oldN.meta = newN.meta)
    (hN3 : oldN.data = newN.data) (hN4 : oldN.dynamicData = newN.dynamicData) :
    loadFeature oldC newC = (true, newC, []) ∧
    loadFeature (some oldH) newH =
      (true,
       { oldH with data := newH.data, dynamicData := newH.dynamicData,
                   state := .reloading },
       [{ channel := "command", subject := "options" }]) ∧
    (loadFeature (some oldH) newH).2.1.id = oldH.id ∧
    loadFeature (some oldN) newN = (false, oldN, []) := by
  refine ⟨?_, ?_, ?_, loadFeature_noop oldN newN hN1 hN2 hN3 hN4⟩
  · rcases hcold with rfl | ⟨o, rfl, h | h⟩
    · exact loadFeature_cold_none newC
    · exact loadFeature_cold_failed o newC h
    · exact loadFeature_cold_meta o newC h
  · exact loadFeature_hot oldH newH hH1 hH2 (by tauto)
  · rw [loadFeature_hot oldH newH hH1 hH2 (by tauto)]
    rfl

theorem claim_C3_reload_decision_witness :
    loadFeature none
        { id := 3, feature := "eventbus", service := "engine", meta := [("name", "redisqueue")],
          data := [], dynamicData := [], state := .loading } =
      (true,
       { id := 3, feature := "eventbus", service := "engine", meta := [("name", "redisqueue")],
         data := [], dynamicData := [], state := .loading }, []) ∧
    loadFeature
        (some { id := 1, feature := "emitter", service := "engine",
                meta := [("name", "datadog")], data := [("host", "a")],
                dynamicData := [], state := .alive })
        { id := 2, feature := "emitter", service := "engine", meta := [("name", "datadog")],
          data := [("host", "b")], dynamicData := [], state := .loading } =
      (true,
       { id := 1, feature := "emitter", service := "engine", meta := [("name", "datadog")],
         data := [("host", "b")], dynamicData := [], state := .reloading },
       [{ channel := "command", subject := "options" }]) ∧
    (loadFeature
        (some { id := 1, feature := "emitter", service := "engine",
                meta := [("name", "datadog")], data := [("host", "a")],
                dynamicData := [], state := .alive })
        { id := 2, feature := "emitter", service := "engine", meta := [("name", "datadog")],
          data := [("host", "b")], dynamicData := [], state := .loading }).2.1.id = 1 ∧
    loadFeature
        (some { id := 5, feature := "api", service := "engine", meta := [("name", "webhook")],
                data := [], dynamicData := [], state := .alive })
        { id := 6, feature := "api", service := "engine", meta := [("name", "webhook")],
          data := [], dynamicData := [], state := .loading } =
      (false,
       { id := 5, feature := "api", service := "engine", meta := [("name", "webhook")],
         data := [], dynamicData := [], state := .alive }, []) :=
  claim_C3_reload_decision none
    { id := 3, feature := "eventbus", service := "engine", meta := [("name", "redisqueue")],
      data := [], dynamicData := [], state := .loading }
    { id := 1, feature := "emitter", service := "engine", meta := [("name", "datadog")],
      data := [("host", "a")], dynamicData := [], state := .alive }
    { id := 2, feature := "emitter", service := "engine", meta := [("name", "datadog")],
      data := [("host", "b")], dynamicData := [], state := .loading }
    { id := 5, feature := "api", service := "engine", meta := [("name", "webhook")],
      data := [], dynamicData := [], state := .alive }
    { id := 6, feature := "api", service := "engine", meta := [("name", "webhook")],
      data := [], dynamicData := [], state := .loading }
    (Or.inl rfl) (by decide) (by decide) (by decide) (by decide) (by decide)
    (by decide) (by decide)

/-! ## Claim C4 -/

/-- C4: `hotReload` takes the new runtime's data and dynamic data, puts the
old runtime into the Reloading state, emits the command:options message, and
leaves every other field — the object identity, feature, service and driver
meta — untouched. -/
theorem claim_C4_hot_reload_frame (driverRuntime oldRuntime : Runtime) :
    (hotReload driverRuntime oldRuntime).1.data = driverRuntime.data ∧
    (hotReload driverRuntime oldRuntime).1.dynamicData = driverRuntime.dynamicData ∧
    (hotReload driverRuntime oldRuntime).1.state = .reloading ∧
    (hotReload driverRuntime oldRuntime).1.id = oldRuntime.id ∧
    (hotReload driverRuntime oldRuntime).1.feature = oldRuntime.feature ∧
    (hotReload driverRuntime oldRuntime).1.service = oldRuntime.service ∧
    (hotReload driverRuntime oldRuntime).1.meta = oldRuntime.meta ∧
    (hotReload driverRuntime oldRuntime).2 = { channel := "command", subject := "options" } :=
  ⟨rfl, rfl, rfl, rfl, rfl, rfl, rfl, rfl⟩

/-! ## Claim C5 -/

/-- C5: an rpc:call from a runtime is forwarded to the runtime registered for
the feature named in labels.feature, with labels.caller stamped to the
originating runtime's feature; an rpc:return with labels.caller "-" is
handled locally by HandleReturn, and any other rpc:return is forwarded to the
runtime registered for the feature named in labels.caller. -/
theorem claim_C5_rpc_routing (s : ServiceSt) (fromRt : Runtime)
    (mc mr mloc : SvcMessage) (dc dr : Runtime)
    (hfeat : getDriverRuntime s (labelsGet mc.labels "feature") = some dc)
    (hcaller : labelsGet mr.labels "caller" ≠ "-")
    (hreg : getDriverRuntime s (labelsGet mr.labels "caller") = some dr)
    (hloc : labelsGet mloc.labels "caller" = "-") :
    handleRPCCall s fromRt mc =
      .ok (.forwarded (labelsGet mc.labels "feature")
            { mc with labels := labelsSet mc.labels "caller" fromRt.feature }) ∧
    handleRPCReturn s mr = .ok (.forwarded (labelsGet mr.labels "caller") mr) ∧
    handleRPCReturn s mloc = .ok (.handledLocally mloc) := by
  refine ⟨?_, ?_, ?_⟩
  · unfold handleRPCCall
    dsimp only
    rw [hfeat]
  · unfold handleRPCReturn
    dsimp only
    rw [if_neg hcaller, hreg]
  · unfold handleRPCReturn
    dsimp only
    rw [if_pos hloc]

theorem claim_C5_rpc_routing_witness :
    handleRPCCall
        ⟨[("driver:logger",
           { id := 10, feature := "driver:logger", service := "engine",
             meta := [("name", "logger")], data := [], dynamicData := [],
             state := .alive }),
          ("eventbus",
           { id := 11, feature := "eventbus", service := "engine",
             meta := [("name", "redisqueue")], data := [], dynamicData := [],
             state := .alive })]⟩
        { id := 11, feature := "eventbus", service := "engine",
          meta := [("name", "redisqueue")], data := [], dynamicData := [],
          state := .alive }
        { channel := "rpc", subject := "call",
          labels := [("feature", "driver:logger"), ("rpcID", "1")] } =
      .ok (.forwarded "driver:logger"
            { channel := "rpc", subject := "call",
              labels := labelsSet [("feature", "driver:logger"), ("rpcID", "1")]
                          "caller" "eventbus" }) ∧
    handleRPCReturn
        ⟨[("driver:logger",
           { id := 10, feature := "driver:logger", service := "engine",
             meta := [("name", "logger")], data := [], dynamicData := [],
             state := .alive }),
          ("eventbus",
           { id := 11, feature := "eventbus", service := "engine",
             meta := [("name", "redisqueue")], data := [], dynamicData := [],
             state := .alive })]⟩
        { channel := "rpc", subject := "return",
          labels := [("caller", "eventbus"), ("rpcID", "1")] } =
      .ok (.forwarded "eventbus"
            { channel := "rpc", subject := "return",
              labels := [("caller", "eventbus"), ("rpcID", "1")] }) ∧
    handleRPCReturn
        ⟨[("driver:logger",
           { id := 10, feature := "driver:logger", service := "engine",
             meta := [("name", "logger")], data := [], dynamicData := [],
             state := .alive }),
          ("eventbus",
           { id := 11, feature := "eventbus", service := "engine",
             meta := [("name", "redisqueue")], data := [], dynamicData := [],
             state := .alive })]⟩
        { channel := "rpc", subject := "return", labels := [("caller", "-")] } =
      .ok (.handledLocally
            { channel := "rpc", subject := "return", labels := [("caller", "-")] }) :=
  claim_C5_rpc_routing
    ⟨[("driver:logger",
       { id := 10, feature := "driver:logger", service := "engine",
         meta := [("name", "logger")], data := [], dynamicData := [],
         state := .alive }),
      ("eventbus",
       { id := 11, feature := "eventbus", service := "engine",
         meta := [("name", "redisqueue")], data := [], dynamicData := [],
         state := .alive })]⟩
    { id := 11, feature := "eventbus", service := "engine",
      meta := [("name", "redisqueue")], data := [], dynamicData := [],
      state := .alive }
    { channel := "rpc", subject := "call",
      labels := [("feature", "driver:logger"), ("rpcID", "1")] }
    { channel := "rpc", subject := "return",
      labels := [("caller", "eventbus"), ("rpcID", "1")] }
    { channel := "rpc", subject := "return", labels := [("caller", "-")] }
    { id := 10, feature := "driver:logger", service := "engine",
      meta := [("name", "logger")], data := [], dynamicData := [],
      state := .alive }
    { id := 11, feature := "eventbus", service := "engine",
      meta := [("name", "redisqueue")], data := [], dynamicData := [],
      state := .alive }
    rfl (by decide) rfl rfl

/-! ## Claim C7

The source of `Drain` installs the draining wait-group and sends command:stop
only inside the `if cnt > 0` branch; with every runtime already Failed or
Stopped the count is zero, no wait-group of count zero is installed (the
field stays nil) and no wait happens, while the stage is still advanced to
Drained.
-/

/-- C7 fails as stated: on a service whose only runtime is already Stopped
the count is zero and no wait-group (of that count, zero) is installed,
while AdvanceStage(Drained) still happens. -/
theorem claim_C7_counterexample :
    drainCount ⟨[("eventbus",
        { id := 0, feature := "eventbus", service := "engine", meta := [],
          data := [], dynamicData := [], state := .stopped })]⟩ = 0 ∧
    (Drain ⟨[("eventbus",
        { id := 0, feature := "eventbus", service := "engine", meta := [],
          data := [], dynamicData := [], state := .stopped })]⟩).drainingGroup = none ∧
    (Drain ⟨[("eventbus",
        { id := 0, feature := "eventbus", service := "engine", meta := [],
          data := [], dynamicData := [], state := .stopped })]⟩).drainingGroup ≠ some 0 ∧
    (Drain ⟨[("eventbus",
        { id := 0, feature := "eventbus", service := "engine", meta := [],
          data := [], dynamicData := [], state := .stopped })]⟩).stages = ["Drained"] :=
  ⟨rfl, rfl, by decide, rfl⟩

/-- C7 (amended): `Drain` clears healthy and sends command:stop to exactly
the runtimes whose state is neither Failed nor Stopped; when that count is
positive a wait-group of exactly that count is installed and waited on with a
one-second bound, and when the count is zero no wait-group is installed and
no wait occurs; in either case the config stage is advanced to Drained
exactly once. -/
theorem claim_C7_drain (s : ServiceSt) :
    (Drain s).healthy = false ∧
    (Drain s).stops = (s.runtimes.filter drainPending).map
        (fun p => (p.1, { channel := "command", subject := "stop" })) ∧
    (Drain s).drainingGroup = (if 0 < drainCount s then some (drainCount s) else none) ∧
    (Drain s).waitSeconds = (if 0 < drainCount s then some 1 else none) ∧
    (Drain s).stages.count "Drained" = 1 := by
  by_cases h : 0 < drainCount s
  · simp [Drain, h]
  · have hf : s.runtimes.filter drainPending = [] := by
      have h0 : drainCount s = 0 := Nat.eq_zero_of_not_pos h
      exact List.length_eq_zero.mp h0
    simp [Drain, h, hf]

/-! ## Claim C9 -/

/-- C9: `handleDriverStop` leaves the runtime Stopped, and a repeated
state:stopped acknowledgement for an already Stopped runtime changes neither
the runtime nor the done count: the wait-group is signalled at most once per
runtime and in particular never driven past one unit per runtime. -/
theorem claim_C9_stop_signalled_once (fromRt : Runtime) (doneCount : Nat) :
    (handleDriverStop fromRt doneCount).1.state = .stopped ∧
    handleDriverStop (handleDriverStop fromRt doneCount).1
        (handleDriverStop fromRt doneCount).2 =
      handleDriverStop fromRt doneCount ∧
    (handleDriverStop fromRt doneCount).2 ≤ doneCount + 1 ∧
    handleDriverStop { fromRt with state := .stopped } doneCount =
      ({ fromRt with state := .stopped }, doneCount) := by
  by_cases h : fromRt.state = DriverState.stopped
  · simp [handleDriverStop, h]
  · simp [handleDriverStop, h]

/-! ## Claim C10 -/

theorem commLookup_map_set (l : CommLocks) (w : Nat) (b : Bool)
    (h : (commLookup l w).isSome = true) :
    commLookup (l.map (fun p => if p.1 = w then (p.1, b) else p)) w = some b := by
  induction l with
  | nil => simp [commLookup] at h
  | cons p l ih =>
    by_cases hp : p.1 = w
    · unfold commLookup
      rw [List.map_cons, if_pos hp,
        List.find?_cons_of_pos _ (by simpa using hp)]
      rfl
    · unfold commLookup at h ⊢
      rw [List.map_cons, if_neg hp,
        List.find?_cons_of_neg _ (by simpa using hp)]
      rw [List.find?_cons_of_neg _ (by simpa using hp)] at h
      exact ih h

theorem commLookup_filter_self (l : CommLocks) (w : Nat) :
    commLookup (l.filter (fun p => p.1 ≠ w)) w = none := by
  induction l with
  | nil => rfl
  | cons p l ih =>
    by_cases hp : p.1 = w
    · rw [List.filter_cons, if_neg (by simpa using hp)]
      exact ih
    · rw [List.filter_cons, if_pos (by simpa using hp)]
      unfold commLookup
      rw [List.find?_cons_of_neg _ (by simpa using hp)]
      exact ih

/-- C10: the registry is asymmetric at its public interface.  `LockComm`
creates the per-writer lock on first use, so after it runs the writer always
has a registered lock and locking never fails; `UnlockComm` after
`RemoveComm` panics with comm-lock-not-found; `RemoveComm` is idempotent and
a no-op on a writer with no registered lock. -/
theorem claim_C10_comm_lock_registry (locks locks2 : CommLocks) (w : Nat)
    (habsent : commLookup locks2 w = none) :
    (commLookup (LockComm locks w) w).isSome = true ∧
    UnlockComm (RemoveComm locks w) w = .error .commLockNotFound ∧
    RemoveComm (RemoveComm locks w) w = RemoveComm locks w ∧
    RemoveComm locks2 w = locks2 := by
  refine ⟨?_, ?_, ?_, ?_⟩
  · unfold LockComm
    cases hl : commLookup locks w with
    | some b =>
      rw [commLookup_map_set locks w true (by rw [hl]; rfl)]
      rfl
    | none =>
      unfold commLookup
      rw [List.find?_cons_of_pos _ (by simp)]
      rfl
  · cases hl : commLookup locks w with
    | some b =>
      unfold RemoveComm
      rw [hl]
      unfold UnlockComm
      rw [commLookup_filter_self locks w]
    | none =>
      unfold RemoveComm
      rw [hl]
      unfold UnlockComm
      rw [hl]
  · cases hl : commLookup locks w with
    | none =>
      have h1 : RemoveComm locks w = locks := by unfold RemoveComm; rw [hl]
      rw [h1]
      exact h1
    | some b =>
      have h1 : RemoveComm locks w = locks.filter (fun p => p.1 ≠ w) := by
        unfold RemoveComm; rw [hl]
      rw [h1]
      unfold RemoveComm
      rw [commLookup_filter_self locks w]
  · unfold RemoveComm
    rw [habsent]

theorem claim_C10_comm_lock_registry_witness :
    (commLookup (LockComm [(7, false)] 7) 7).isSome = true ∧
    UnlockComm (RemoveComm [(7, false)] 7) 7 = .error .commLockNotFound ∧
    RemoveComm (RemoveComm [(7, false)] 7) 7 = RemoveComm [(7, false)] 7 ∧
    RemoveComm ([] : CommLocks) 7 = [] :=
  claim_C10_comm_lock_registry [(7, false)] [] 7 rfl

end Honeydipper
